import Mathlib

/-!
Shallow embedding of the survey backend (two variants):
* `src/main.py`  — fixed-column variant: one wide row per participant,
  handlers `save_consent`, `save_demo`, `save_rep`, `save_rating`, `finish`.
* `src/main_tyuta.py` — generic journaled variant: `participants` table plus
  an append-only `answers` table, handlers `save` and `finish`.

JSON request bodies are modelled by `JVal`.  Python-specific semantics that
the handlers rely on are modelled explicitly:
* Python truthiness (`if not participant_id`) via `truthy`;
* `isinstance(x, int)` accepts `bool` (with `True == 1`, `False == 0`),
  via `asPyInt`;
* `dict.get` on a non-dict raises `AttributeError`; an uncaught Python
  exception is modelled by `Err.exn`;
* an `HTTPException(status_code, detail)` is modelled by `Err.http`.

Each handler is a function from the parsed request body and the database
state to `Except Err` of the new state; SQLite time stamps are passed in as
explicit `now : String` arguments where the source calls `datetime.now()`.
-/

/-- A parsed JSON value, as produced by `await req.json()`. -/
inductive JVal where
  | jnull : JVal
  | jbool : Bool → JVal
  | jint : Int → JVal
  | jstr : String → JVal
  | jlist : List JVal → JVal
  | jobj : List (String × JVal) → JVal

/-- Errors a handler can produce: an `HTTPException(code, detail)` or an
uncaught Python exception (e.g. `AttributeError` from `.get` on a non-dict). -/
inductive Err where
  | http : Nat → String → Err
  | exn : Err
deriving DecidableEq, Repr

/-- Field lookup in a JSON object, first binding wins (Python dicts hold at
most one binding per key; `jlookup` returns the first, matching `dict.get`). -/
def jlookup (fs : List (String × JVal)) (k : String) : Option JVal :=
  match fs with
  | [] => none
  | (k2, v) :: rest => if k2 = k then some v else jlookup rest k

/-- `body.get(k)`: `AttributeError` when the receiver is not a dict, the
value (or `None`, i.e. `jnull`) otherwise. -/
def pyGet (v : JVal) (k : String) : Except Err JVal :=
  match v with
  | .jobj fs => .ok ((jlookup fs k).getD .jnull)
  | _ => .error .exn

/-- Python truthiness: `None`, `False`, `0`, `""`, `[]`, `{}` are falsy. -/
def truthy : JVal → Bool
  | .jnull => false
  | .jbool b => b
  | .jint n => !(n == 0)
  | .jstr s => !(s == "")
  | .jlist xs => !xs.isEmpty
  | .jobj fs => !fs.isEmpty

/-- `isinstance(x, int)` with the value it denotes: Python `bool` is a
subtype of `int` (`True == 1`, `False == 0`); every other JSON shape is not
an `int`. -/
def asPyInt : JVal → Option Int
  | .jint n => some n
  | .jbool b => some (if b then 1 else 0)
  | _ => none

/-- One row of the `experiment_results` table of the fixed-column variant
(`stress_condition` and `created_at` are NOT NULL, everything else nullable;
the fifteen `repression_q{i}` columns are kept as a list in index order). -/
structure Row where
  consent_given : Option Int := none
  speak_english : Option String := none
  age : Option Int := none
  gender : Option String := none
  residence : Option String := none
  socioeconomic : Option String := none
  marital_status : Option String := none
  education : Option String := none
  repression_qs : List (Option Int) := List.replicate 15 none
  stress_condition : Int
  stress_level : Option Int := none
  created_at : String
  completed_at : Option String := none
deriving DecidableEq, Repr

/-- The `experiment_results` table: rows keyed by `participant_id`
(a `TEXT PRIMARY KEY`; an association list, looked up on the key). -/
def ExpState := List (String × Row)

instance : DecidableEq ExpState := by
  unfold ExpState
  infer_instance

/-- `SELECT ... WHERE participant_id=?`: first row with the given key. -/
def findRow (st : ExpState) (pid : String) : Option Row :=
  match st with
  | [] => none
  | kr :: rest => if kr.1 = pid then some kr.2 else findRow rest pid

/-- `UPDATE ... WHERE participant_id=?`: rewrite every row whose key
matches (at most one exists under the primary-key constraint, but the SQL
semantics is a map over all matches). -/
def updRows (st : ExpState) (pid : String) (f : Row → Row) : ExpState :=
  st.map (fun kr => if kr.1 = pid then (kr.1, f kr.2) else kr)

/-- The SQL text the driver compares a bound `participant_id` parameter
against a `TEXT` column with: strings as themselves, ints and bools through
SQLite numeric-to-text affinity; `None` (`NULL`) and unsupported bindings
match no row. -/
def pidKey : JVal → Option String
  | .jstr s => some s
  | .jint n => some (toString n)
  | .jbool b => some (if b then "1" else "0")
  | _ => none

/-- `ensure_participant_exists` (src/main.py:100-107): 404 when the
`SELECT` finds no row. -/
def ensure_participant_exists (st : ExpState) (pidv : JVal) : Except Err Unit :=
  match pidKey pidv with
  | some s =>
      if (findRow st s).isSome then .ok ()
      else .error (Err.http 404 "participant_id not found")
  | none => .error (Err.http 404 "participant_id not found")

/-- `data = body.get("data") or {}`. -/
def dataOrEmpty (raw : JVal) : JVal :=
  if truthy raw then raw else .jobj []

/-- `consent_given not in (0, 1)` — Python `in` compares with `==`, so
`True`/`False` count as `1`/`0`. -/
def consentVal (v : JVal) : Option Int :=
  match asPyInt v with
  | some n => if n = 0 ∨ n = 1 then some n else none
  | none => none

/-- `POST /save/consent` (src/main.py:110-132). -/
def save_consent (body : JVal) (st : ExpState) : Except Err ExpState :=
  match pyGet body "participant_id", pyGet body "data" with
  | .error e, _ => .error e
  | _, .error e => .error e
  | .ok pidv, .ok rawData =>
    if !truthy pidv then .error (Err.http 400 "Missing participant_id") else
    match pyGet (dataOrEmpty rawData) "consent_given" with
    | .error e => .error e
    | .ok cg =>
      match consentVal cg with
      | none => .error (Err.http 400 "consent_given must be 0 or 1")
      | some n =>
        match ensure_participant_exists st pidv with
        | .error e => .error e
        | .ok _ =>
          .ok (updRows st ((pidKey pidv).getD "")
                (fun r => { r with consent_given := some n }))

/-- The seven demographic fields extracted by `save_demo`, in the source's
validation order, with their stored representations. -/
structure DemoFields where
  speak_english : String
  age : Int
  gender : String
  residence : String
  socioeconomic : String
  marital_status : String
  education : String
deriving DecidableEq, Repr

/-- `speak_english not in ("yes", "no")`. -/
def speakEnglishOk (v : JVal) : Bool :=
  match v with
  | .jstr s => s == "yes" || s == "no"
  | _ => false

/-- `not isinstance(age, int) or age < 18 or age > 99` negated. -/
def ageOk (v : JVal) : Bool :=
  match asPyInt v with
  | some n => !(n < 18) && !(n > 99)
  | none => false

/-- Membership of a JSON value in a tuple of string literals, as Python
`x in ("a", "b", ...)` (string equality; non-strings never match). -/
def strIn (v : JVal) (opts : List String) : Bool :=
  match v with
  | .jstr s => opts.contains s
  | _ => false

/-- Forces the string out of a value known to be a string (validator
success means the checked value was one of a list of string literals). -/
def theStr : JVal → String
  | .jstr s => s
  | _ => ""

/-- The pure validation phase of `save_demo` (src/main.py:144-175):
extraction of the seven fields and the seven checks, in source order. -/
def demoValidate (data : JVal) : Except Err DemoFields :=
  match pyGet data "speak_english", pyGet data "age", pyGet data "gender",
        pyGet data "residence", pyGet data "socioeconomic",
        pyGet data "marital_status", pyGet data "education" with
  | .ok se, .ok age, .ok g, .ok res, .ok soc, .ok ms, .ok edu =>
    if !speakEnglishOk se then .error (Err.http 400 "speak_english must be yes/no") else
    if !ageOk age then .error (Err.http 400 "Invalid age (must be integer 18-99)") else
    if !strIn g ["male", "female", "other"] then
      .error (Err.http 400 "gender must be male/female/other") else
    if !strIn res ["north", "central", "south"] then
      .error (Err.http 400 "residence must be north/central/south") else
    if !strIn soc ["low", "medium", "high"] then
      .error (Err.http 400 "socioeconomic must be low/medium/high") else
    if !strIn ms ["single", "married"] then
      .error (Err.http 400 "marital_status must be single/married") else
    if !strIn edu ["until_high_school", "high_school", "ba", "masters_or_higher"] then
      .error (Err.http 400 "education must be until_high_school/high_school/ba/masters_or_higher") else
    .ok { speak_english := theStr se, age := (asPyInt age).getD 0, gender := theStr g,
          residence := theStr res, socioeconomic := theStr soc,
          marital_status := theStr ms, education := theStr edu }
  | .error e, _, _, _, _, _, _ => .error e
  | _, .error e, _, _, _, _, _ => .error e
  | _, _, .error e, _, _, _, _ => .error e
  | _, _, _, .error e, _, _, _ => .error e
  | _, _, _, _, .error e, _, _ => .error e
  | _, _, _, _, _, .error e, _ => .error e
  | _, _, _, _, _, _, .error e => .error e

/-- `POST /save/demo` (src/main.py:135-205). -/
def save_demo (body : JVal) (st : ExpState) : Except Err ExpState :=
  match pyGet body "participant_id", pyGet body "data" with
  | .error e, _ => .error e
  | _, .error e => .error e
  | .ok pidv, .ok rawData =>
    if !truthy pidv then .error (Err.http 400 "Missing participant_id") else
    match demoValidate (dataOrEmpty rawData) with
    | .error e => .error e
    | .ok d =>
      match ensure_participant_exists st pidv with
      | .error e => .error e
      | .ok _ =>
        .ok (updRows st ((pidKey pidv).getD "")
              (fun r => { r with
                speak_english := some d.speak_english,
                age := some d.age,
                gender := some d.gender,
                residence := some d.residence,
                socioeconomic := some d.socioeconomic,
                marital_status := some d.marital_status,
                education := some d.education }))

/-- The loop body of `save_rep`'s scores accumulation (src/main.py:220-231):
non-dict items are skipped; a dict item writes `scores[qIndex] = score` only
when `qIndex` is an int in [1,15] and `score` an int in [1,5]. -/
def updScores (acc : Int → Option Int) (item : JVal) : Int → Option Int :=
  match item with
  | .jobj fs =>
      match asPyInt ((jlookup fs "qIndex").getD .jnull),
            asPyInt ((jlookup fs "score").getD .jnull) with
      | some q, some s =>
          if 1 ≤ q ∧ q ≤ 15 ∧ 1 ≤ s ∧ s ≤ 5 then
            fun k => if k = q then some s else acc k
          else acc
      | _, _ => acc
  | _ => acc

/-- The resolved per-index scores of a repression submission: the Python
dict built by the loop, as a map from index to the last accepted score. -/
def repScores (items : List JVal) : Int → Option Int :=
  items.foldl updScores (fun _ => none)

/-- `range(1, 16)` as integers. -/
def repIdxs : List Int := [1, 2, 3, 4, 5, 6, 7, 8, 9, 10, 11, 12, 13, 14, 15]

/-- `missing = [i for i in range(1, 16) if i not in scores]`. -/
def repMissing (items : List JVal) : List Int :=
  repIdxs.filter (fun i => (repScores items i).isNone)

/-- Python `repr` of a list of ints, as interpolated by
`f"Missing repression answers: {missing}"`. -/
def pyIntListRepr (xs : List Int) : String :=
  "[" ++ String.intercalate ", " (xs.map toString) ++ "]"

/-- The 400 detail of a failed repression submission. -/
def missingMsg (xs : List Int) : String :=
  "Missing repression answers: " ++ pyIntListRepr xs

/-- `POST /save/rep` (src/main.py:208-249). -/
def save_rep (body : JVal) (st : ExpState) : Except Err ExpState :=
  match pyGet body "participant_id", pyGet body "data" with
  | .error e, _ => .error e
  | _, .error e => .error e
  | .ok pidv, .ok rawData =>
    if !truthy pidv then .error (Err.http 400 "Missing participant_id") else
    match rawData with
    | .jlist items =>
        if !(repMissing items).isEmpty then
          .error (Err.http 400 (missingMsg (repMissing items)))
        else
          match ensure_participant_exists st pidv with
          | .error e => .error e
          | .ok _ =>
            .ok (updRows st ((pidKey pidv).getD "")
                  (fun r => { r with
                    repression_qs := repIdxs.map (fun i => repScores items i) }))
    | _ => .error (Err.http 400 "Repression data must be a list")

/-- `not isinstance(rating, int) or rating < 1 or rating > 10` negated. -/
def ratingOk (v : JVal) : Bool :=
  match asPyInt v with
  | some n => !(n < 1) && !(n > 10)
  | none => false

/-- `POST /save/rating` (src/main.py:252-274). -/
def save_rating (body : JVal) (st : ExpState) : Except Err ExpState :=
  match pyGet body "participant_id", pyGet body "data" with
  | .error e, _ => .error e
  | _, .error e => .error e
  | .ok pidv, .ok rawData =>
    if !truthy pidv then .error (Err.http 400 "Missing participant_id") else
    match pyGet (dataOrEmpty rawData) "rating" with
    | .error e => .error e
    | .ok rv =>
      if !ratingOk rv then .error (Err.http 400 "Invalid rating (must be integer 1-10)") else
      match ensure_participant_exists st pidv with
      | .error e => .error e
      | .ok _ =>
        .ok (updRows st ((pidKey pidv).getD "")
              (fun r => { r with stress_level := some ((asPyInt rv).getD 0) }))

/-- `POST /finish` (src/main.py:277-294); `now` is the
`datetime.now().isoformat()` stamp of the request. -/
def finish (body : JVal) (now : String) (st : ExpState) : Except Err ExpState :=
  match pyGet body "participant_id" with
  | .error e => .error e
  | .ok pidv =>
    if !truthy pidv then .error (Err.http 400 "Missing participant_id") else
    match ensure_participant_exists st pidv with
    | .error e => .error e
    | .ok _ =>
      .ok (updRows st ((pidKey pidv).getD "")
            (fun r => { r with completed_at := some now }))

/-- Hex digit for JSON `\u00XX` escapes. -/
def hexDigit (n : Nat) : Char :=
  if n < 10 then Char.ofNat (48 + n) else Char.ofNat (87 + n)

/-- One character of a JSON string literal, as `json.dumps` with
`ensure_ascii=False` renders it: quote and backslash escaped, control
characters as `\n`, `\t`, `\r` or `\u00XX`, everything else verbatim. -/
def jescChar (c : Char) : String :=
  if c = '"' then "\\\"" else
  if c = '\\' then "\\\\" else
  if c = '\n' then "\\n" else
  if c = '\t' then "\\t" else
  if c = '\r' then "\\r" else
  if c.toNat < 32 then
    "\\u00" ++ String.mk [hexDigit (c.toNat / 16), hexDigit (c.toNat % 16)]
  else String.mk [c]

/-- A JSON string literal as `json.dumps` renders it. -/
def jstrDump (s : String) : String :=
  "\"" ++ String.join (s.toList.map jescChar) ++ "\""

mutual

/-- `json.dumps(data, ensure_ascii=False)` (src/main_tyuta.py:101), with
the default separators `", "` and `": "`. -/
def jdumps : JVal → String
  | .jnull => "null"
  | .jbool b => if b then "true" else "false"
  | .jint n => toString n
  | .jstr s => jstrDump s
  | .jlist xs => "[" ++ jdumpsList xs ++ "]"
  | .jobj fs => "\x7b" ++ jdumpsObj fs ++ "\x7d"

/-- Comma-joined serialization of a JSON array's elements. -/
def jdumpsList : List JVal → String
  | [] => ""
  | [x] => jdumps x
  | x :: y :: rest => jdumps x ++ ", " ++ jdumpsList (y :: rest)

/-- Comma-joined serialization of a JSON object's entries. -/
def jdumpsObj : List (String × JVal) → String
  | [] => ""
  | [(k, v)] => jstrDump k ++ ": " ++ jdumps v
  | (k, v) :: e :: rest => jstrDump k ++ ": " ++ jdumps v ++ ", " ++ jdumpsObj (e :: rest)

end

namespace Tyuta

/-- One row of the `participants` table of the generic variant
(src/main_tyuta.py:37-44), keyed externally by `id`. -/
structure TParticipant where
  stress_condition : Int
  created_at : String
  completed_at : Option String := none
deriving DecidableEq, Repr

/-- One row of the append-only `answers` table (src/main_tyuta.py:45-52). -/
structure TAnswer where
  participant_id : String
  stage : String
  data : String
  created_at : String
deriving DecidableEq, Repr

/-- The generic variant's database: `participants` keyed by `id`, plus the
`answers` journal in insertion order. -/
structure TState where
  participants : List (String × TParticipant)
  answers : List TAnswer
deriving DecidableEq, Repr

/-- `SELECT id FROM participants WHERE id=?`. -/
def findPart (ps : List (String × TParticipant)) (pid : String) : Option TParticipant :=
  match ps with
  | [] => none
  | kp :: rest => if kp.1 = pid then some kp.2 else findPart rest pid

/-- `UPDATE participants ... WHERE id=?`. -/
def updParts (ps : List (String × TParticipant)) (pid : String)
    (f : TParticipant → TParticipant) : List (String × TParticipant) :=
  ps.map (fun kp => if kp.1 = pid then (kp.1, f kp.2) else kp)

/-- The stage allow-list (src/main_tyuta.py:81). -/
def allowedStages : List String := ["demo", "rep", "exp", "rating"]

/-- `POST /save/{stage}` of the generic variant (src/main_tyuta.py:78-109). -/
def save (stage : String) (body : JVal) (now : String) (st : TState) :
    Except Err TState :=
  if !(allowedStages.contains stage) then
    .error (Err.http 400 ("Invalid stage \x27" ++ stage ++ "\x27"))
  else
    match pyGet body "participant_id", pyGet body "data" with
    | .error e, _ => .error e
    | _, .error e => .error e
    | .ok pidv, .ok datav =>
      if !truthy pidv then .error (Err.http 400 "Missing participant_id") else
      match pidKey pidv with
      | some s =>
          if (findPart st.participants s).isSome then
            .ok { st with
                  answers := st.answers ++
                    [{ participant_id := s, stage := stage,
                       data := jdumps datav, created_at := now }] }
          else .error (Err.http 404 "participant_id not found")
      | none => .error (Err.http 404 "participant_id not found")

/-- `POST /finish` of the generic variant (src/main_tyuta.py:112-131). -/
def finish (body : JVal) (now : String) (st : TState) : Except Err TState :=
  match pyGet body "participant_id" with
  | .error e => .error e
  | .ok pidv =>
    if !truthy pidv then .error (Err.http 400 "Missing participant_id") else
    match pidKey pidv with
    | some s =>
        if (findPart st.participants s).isSome then
          .ok { st with
                participants := updParts st.participants s
                  (fun p => { p with completed_at := some now }) }
        else .error (Err.http 404 "participant_id not found")
    | none => .error (Err.http 404 "participant_id not found")

end Tyuta

/-- A post-creation request against the fixed-column variant: one of the
four stage submissions or `finish` (with its clock reading). -/
inductive Op where
  | consent (body : JVal)
  | demo (body : JVal)
  | rep (body : JVal)
  | rating (body : JVal)
  | fin (body : JVal) (now : String)

/-- Dispatch an `Op` to its handler. -/
def applyOp : Op → ExpState → Except Err ExpState
  | .consent b, st => save_consent b st
  | .demo b, st => save_demo b st
  | .rep b, st => save_rep b st
  | .rating b, st => save_rating b st
  | .fin b now, st => finish b now st

/-- The database state after a request: changed on success, untouched when
the handler raised (every raise happens before the single UPDATE commits). -/
def runOp (op : Op) (st : ExpState) : ExpState :=
  match applyOp op st with
  | .ok st2 => st2
  | .error _ => st

/-- The state after a sequence of requests. -/
def runOps (ops : List Op) (st : ExpState) : ExpState :=
  ops.foldl (fun s op => runOp op s) st

/-- A post-creation request against the generic variant. -/
inductive TOp where
  | save (stage : String) (body : JVal) (now : String)
  | fin (body : JVal) (now : String)

/-- Dispatch a `TOp` to its handler. -/
def applyTOp : TOp → Tyuta.TState → Except Err Tyuta.TState
  | .save stage b now, st => Tyuta.save stage b now st
  | .fin b now, st => Tyuta.finish b now st

/-- Generic-variant state after a request (unchanged on error). -/
def runTOp (op : TOp) (st : Tyuta.TState) : Tyuta.TState :=
  match applyTOp op st with
  | .ok st2 => st2
  | .error _ => st

/-- Generic-variant state after a sequence of requests. -/
def runTOps (ops : List TOp) (st : Tyuta.TState) : Tyuta.TState :=
  ops.foldl (fun s op => runTOp op s) st

/-- The state after a request when the handler's result is kept only on
success: every raise happens before the single UPDATE, so a failed request
leaves the table untouched. -/
def runSave (f : JVal → ExpState → Except Err ExpState) (body : JVal)
    (st : ExpState) : ExpState :=
  match f body st with
  | .ok st2 => st2
  | .error _ => st

/-- The usual request wrapper `{"participant_id": pid, "data": data}`. -/
def stdBody (pid : String) (data : JVal) : JVal :=
  .jobj [("participant_id", .jstr pid), ("data", data)]

/-- A request body carrying only the participant id (enough for `finish`). -/
def pidBody (pid : String) : JVal :=
  .jobj [("participant_id", .jstr pid)]

/-- The value `data.get(k)` yields on a dict payload (`None` when absent). -/
def demoField (fs : List (String × JVal)) (k : String) : JVal :=
  (jlookup fs k).getD .jnull

/-- All seven demographic checks of `save_demo`, conjoined. -/
def demoChecksOk (fs : List (String × JVal)) : Bool :=
  speakEnglishOk (demoField fs "speak_english") &&
  ageOk (demoField fs "age") &&
  strIn (demoField fs "gender") ["male", "female", "other"] &&
  strIn (demoField fs "residence") ["north", "central", "south"] &&
  strIn (demoField fs "socioeconomic") ["low", "medium", "high"] &&
  strIn (demoField fs "marital_status") ["single", "married"] &&
  strIn (demoField fs "education") ["until_high_school", "high_school", "ba", "masters_or_higher"]

/-- The 400 detail of a demographics failure names a field whose submitted
value really fails that field's check. -/
def demoMsgNamesBadField (fs : List (String × JVal)) (msg : String) : Prop :=
  (msg = "speak_english must be yes/no" ∧
    speakEnglishOk (demoField fs "speak_english") = false) ∨
  (msg = "Invalid age (must be integer 18-99)" ∧ ageOk (demoField fs "age") = false) ∨
  (msg = "gender must be male/female/other" ∧
    strIn (demoField fs "gender") ["male", "female", "other"] = false) ∨
  (msg = "residence must be north/central/south" ∧
    strIn (demoField fs "residence") ["north", "central", "south"] = false) ∨
  (msg = "socioeconomic must be low/medium/high" ∧
    strIn (demoField fs "socioeconomic") ["low", "medium", "high"] = false) ∨
  (msg = "marital_status must be single/married" ∧
    strIn (demoField fs "marital_status") ["single", "married"] = false) ∨
  (msg = "education must be until_high_school/high_school/ba/masters_or_higher" ∧
    strIn (demoField fs "education")
      ["until_high_school", "high_school", "ba", "masters_or_higher"] = false)

/-- A well-formed repression item `{"qIndex": q, "score": s}`. -/
def repItem (q s : Int) : JVal :=
  .jobj [("qIndex", .jint q), ("score", .jint s)]

/-- The acceptance condition of `save_rep`'s loop: a dict item whose
`qIndex` is an int in [1,15] and whose `score` is an int in [1,5]. -/
def repItemValid (item : JVal) : Bool :=
  match item with
  | .jobj fs =>
      match asPyInt ((jlookup fs "qIndex").getD .jnull),
            asPyInt ((jlookup fs "score").getD .jnull) with
      | some q, some s => decide (1 ≤ q ∧ q ≤ 15 ∧ 1 ≤ s ∧ s ≤ 5)
      | _, _ => false
  | _ => false

/-- A fresh participant row with condition 0, created at time `"t0"`. -/
def row0 : Row :=
  { stress_condition := 0, created_at := "t0" }

/-- A one-participant `experiment_results` table holding `"p1"`. -/
def st0 : ExpState := [("p1", row0)]

/-- A fresh generic-variant participant. -/
def tpart0 : Tyuta.TParticipant :=
  { stress_condition := 1, created_at := "t0" }

/-- A generic-variant database holding participant `"p1"` and no answers. -/
def tst0 : Tyuta.TState :=
  { participants := [("p1", tpart0)], answers := [] }

/-- A demographics payload that is valid except that its gender is spelled
`"Male"` with a capital M. -/
def maleDemoObj : List (String × JVal) :=
  [("speak_english", .jstr "yes"), ("age", .jint 30), ("gender", .jstr "Male"),
   ("residence", .jstr "north"), ("socioeconomic", .jstr "low"),
   ("marital_status", .jstr "single"), ("education", .jstr "ba")]

/-- A fully valid demographics payload (gender `"male"`). -/
def validDemoObj : List (String × JVal) :=
  [("speak_english", .jstr "yes"), ("age", .jint 30), ("gender", .jstr "male"),
   ("residence", .jstr "north"), ("socioeconomic", .jstr "low"),
   ("marital_status", .jstr "single"), ("education", .jstr "ba")]

/-- Fifteen valid repression items covering indices 1..15 with score 3. -/
def fullRepItems : List JVal :=
  repIdxs.map (fun i => repItem i 3)


theorem findRow_updRows (st : ExpState) (k : String) (f : Row → Row) (q : String) :
    findRow (updRows st k f) q =
      if q = k then (findRow st q).map f else findRow st q := by
  induction st with
  | nil => simp [findRow, updRows]
  | cons kr rest ih =>
    obtain ⟨a, r⟩ := kr
    by_cases hqk : q = k
    · subst hqk
      by_cases haq : a = q <;> simp_all [findRow, updRows]
    · by_cases haq : a = q
      · subst haq
        simp_all [findRow, updRows, Ne.symm hqk]
      · by_cases hak : a = k <;> simp_all [findRow, updRows, Ne.symm hqk]

theorem findPart_updParts (ps : List (String × Tyuta.TParticipant)) (k : String)
    (f : Tyuta.TParticipant → Tyuta.TParticipant) (q : String) :
    Tyuta.findPart (Tyuta.updParts ps k f) q =
      if q = k then (Tyuta.findPart ps q).map f else Tyuta.findPart ps q := by
  induction ps with
  | nil => simp [Tyuta.findPart, Tyuta.updParts]
  | cons kp rest ih =>
    obtain ⟨a, p⟩ := kp
    by_cases hqk : q = k
    · subst hqk
      by_cases haq : a = q <;> simp_all [Tyuta.findPart, Tyuta.updParts]
    · by_cases haq : a = q
      · subst haq
        simp_all [Tyuta.findPart, Tyuta.updParts, Ne.symm hqk]
      · by_cases hak : a = k <;> simp_all [Tyuta.findPart, Tyuta.updParts, Ne.symm hqk]

/-- A row rewrite that leaves `stress_condition` and `created_at` intact and
never clears `completed_at`. -/
def keepsIdentityFields (f : Row → Row) : Prop :=
  ∀ r, (f r).stress_condition = r.stress_condition ∧
    (f r).created_at = r.created_at ∧
    (r.completed_at.isSome = true → (f r).completed_at.isSome = true)

theorem save_consent_ok_shape (body : JVal) (st st2 : ExpState)
    (h : save_consent body st = .ok st2) :
    ∃ key f, keepsIdentityFields f ∧ st2 = updRows st key f := by
  unfold save_consent at h
  repeat' split at h
  all_goals cases h
  refine ⟨_, _, ?_, rfl⟩
  exact fun r => ⟨rfl, rfl, fun hc => hc⟩

theorem save_demo_ok_shape (body : JVal) (st st2 : ExpState)
    (h : save_demo body st = .ok st2) :
    ∃ key f, keepsIdentityFields f ∧ st2 = updRows st key f := by
  unfold save_demo at h
  repeat' split at h
  all_goals cases h
  refine ⟨_, _, ?_, rfl⟩
  exact fun r => ⟨rfl, rfl, fun hc => hc⟩

theorem save_rep_ok_shape (body : JVal) (st st2 : ExpState)
    (h : save_rep body st = .ok st2) :
    ∃ key f, keepsIdentityFields f ∧ st2 = updRows st key f := by
  unfold save_rep at h
  repeat' split at h
  all_goals cases h
  refine ⟨_, _, ?_, rfl⟩
  exact fun r => ⟨rfl, rfl, fun hc => hc⟩

theorem save_rating_ok_shape (body : JVal) (st st2 : ExpState)
    (h : save_rating body st = .ok st2) :
    ∃ key f, keepsIdentityFields f ∧ st2 = updRows st key f := by
  unfold save_rating at h
  repeat' split at h
  all_goals cases h
  refine ⟨_, _, ?_, rfl⟩
  exact fun r => ⟨rfl, rfl, fun hc => hc⟩

theorem finish_ok_shape (body : JVal) (now : String) (st st2 : ExpState)
    (h : finish body now st = .ok st2) :
    ∃ key f, keepsIdentityFields f ∧ st2 = updRows st key f := by
  unfold finish at h
  repeat' split at h
  all_goals cases h
  refine ⟨_, _, ?_, rfl⟩
  exact fun r => ⟨rfl, rfl, fun _ => rfl⟩

theorem runOp_preserves (op : Op) (st : ExpState) (q : String) (r : Row)
    (h : findRow st q = some r) :
    ∃ r2, findRow (runOp op st) q = some r2 ∧
      r2.stress_condition = r.stress_condition ∧
      r2.created_at = r.created_at ∧
      (r.completed_at.isSome = true → r2.completed_at.isSome = true) := by
  unfold runOp
  cases hop : applyOp op st with
  | error e => exact ⟨r, h, rfl, rfl, fun hc => hc⟩
  | ok st2 =>
    have hsh : ∃ key f, keepsIdentityFields f ∧ st2 = updRows st key f := by
      cases op <;> simp only [applyOp] at hop
      · exact save_consent_ok_shape _ _ _ hop
      · exact save_demo_ok_shape _ _ _ hop
      · exact save_rep_ok_shape _ _ _ hop
      · exact save_rating_ok_shape _ _ _ hop
      · exact finish_ok_shape _ _ _ _ hop
    obtain ⟨key, f, hf, rfl⟩ := hsh
    rw [findRow_updRows]
    by_cases hqk : q = key
    · subst hqk
      refine ⟨f r, ?_, (hf r).1, (hf r).2.1, (hf r).2.2⟩
      simp [h]
    · refine ⟨r, ?_, rfl, rfl, fun hc => hc⟩
      simp [hqk, h]

theorem runOps_preserves (ops : List Op) : ∀ (st : ExpState) (q : String) (r : Row),
    findRow st q = some r →
    ∃ r2, findRow (runOps ops st) q = some r2 ∧
      r2.stress_condition = r.stress_condition ∧
      r2.created_at = r.created_at ∧
      (r.completed_at.isSome = true → r2.completed_at.isSome = true) := by
  induction ops with
  | nil => exact fun st q r h => ⟨r, h, rfl, rfl, fun hc => hc⟩
  | cons op rest ih =>
    intro st q r h
    obtain ⟨r1, h1, e1, e2, e3⟩ := runOp_preserves op st q r h
    obtain ⟨r2, h2, f1, f2, f3⟩ := ih (runOp op st) q r1 h1
    exact ⟨r2, by simpa [runOps] using h2, f1.trans e1, f2.trans e2, fun hc => f3 (e3 hc)⟩

theorem tyuta_save_ok_shape (stage : String) (body : JVal) (now : String)
    (st st2 : Tyuta.TState) (h : Tyuta.save stage body now st = .ok st2) :
    st2.participants = st.participants := by
  unfold Tyuta.save at h
  repeat' split at h
  all_goals cases h
  rfl

theorem tyuta_finish_ok_shape (body : JVal) (now : String)
    (st st2 : Tyuta.TState) (h : Tyuta.finish body now st = .ok st2) :
    ∃ key, st2.participants =
      Tyuta.updParts st.participants key (fun p => { p with completed_at := some now }) := by
  unfold Tyuta.finish at h
  repeat' split at h
  all_goals cases h
  exact ⟨_, rfl⟩

theorem runTOp_preserves (op : TOp) (st : Tyuta.TState) (q : String)
    (p : Tyuta.TParticipant) (h : Tyuta.findPart st.participants q = some p) :
    ∃ p2, Tyuta.findPart (runTOp op st).participants q = some p2 ∧
      p2.stress_condition = p.stress_condition ∧
      p2.created_at = p.created_at ∧
      (p.completed_at.isSome = true → p2.completed_at.isSome = true) := by
  unfold runTOp
  cases hop : applyTOp op st with
  | error e => exact ⟨p, h, rfl, rfl, fun hc => hc⟩
  | ok st2 =>
    cases op with
    | save stage b now =>
      simp only [applyTOp] at hop
      rw [tyuta_save_ok_shape stage b now st st2 hop]
      exact ⟨p, h, rfl, rfl, fun hc => hc⟩
    | fin b now =>
      simp only [applyTOp] at hop
      obtain ⟨key, hk⟩ := tyuta_finish_ok_shape b now st st2 hop
      rw [hk, findPart_updParts]
      by_cases hqk : q = key
      · subst hqk
        refine ⟨{ p with completed_at := some now }, ?_, rfl, rfl, fun _ => rfl⟩
        simp [h]
      · refine ⟨p, ?_, rfl, rfl, fun hc => hc⟩
        simp [hqk, h]

theorem runTOps_preserves (ops : List TOp) : ∀ (st : Tyuta.TState) (q : String)
    (p : Tyuta.TParticipant), Tyuta.findPart st.participants q = some p →
    ∃ p2, Tyuta.findPart (runTOps ops st).participants q = some p2 ∧
      p2.stress_condition = p.stress_condition ∧
      p2.created_at = p.created_at ∧
      (p.completed_at.isSome = true → p2.completed_at.isSome = true) := by
  induction ops with
  | nil => exact fun st q p h => ⟨p, h, rfl, rfl, fun hc => hc⟩
  | cons op rest ih =>
    intro st q p h
    obtain ⟨p1, h1, e1, e2, e3⟩ := runTOp_preserves op st q p h
    obtain ⟨p2, h2, f1, f2, f3⟩ := ih (runTOp op st) q p1 h1
    exact ⟨p2, by simpa [runTOps] using h2, f1.trans e1, f2.trans e2, fun hc => f3 (e3 hc)⟩

theorem pyGet_error (v : JVal) (k : String) (e : Err) (h : pyGet v k = .error e) :
    e = Err.exn := by
  cases v <;> simp_all [pyGet]

theorem ensure_error (st : ExpState) (pidv : JVal) (e : Err)
    (h : ensure_participant_exists st pidv = .error e) :
    e = Err.http 404 "participant_id not found" := by
  unfold ensure_participant_exists at h
  repeat' split at h
  all_goals cases h
  all_goals rfl

theorem truthy_jstr (s : String) (h : s ≠ "") : truthy (.jstr s) = true := by
  simp [truthy, h]

/-- C6: for every participant, across any sequence of stage submissions and
finish calls after creation, `stress_condition` and `created_at` never
change, and `completed_at` never goes from non-null back to null — in both
the fixed-column and the generic variant. -/
theorem claim_C6 :
    (∀ (ops : List Op) (st : ExpState) (q : String) (r : Row),
        findRow st q = some r →
        ∃ r2, findRow (runOps ops st) q = some r2 ∧
          r2.stress_condition = r.stress_condition ∧
          r2.created_at = r.created_at ∧
          (r.completed_at.isSome = true → r2.completed_at.isSome = true)) ∧
    (∀ (ops : List TOp) (st : Tyuta.TState) (q : String) (p : Tyuta.TParticipant),
        Tyuta.findPart st.participants q = some p →
        ∃ p2, Tyuta.findPart (runTOps ops st).participants q = some p2 ∧
          p2.stress_condition = p.stress_condition ∧
          p2.created_at = p.created_at ∧
          (p.completed_at.isSome = true → p2.completed_at.isSome = true)) :=
  ⟨fun ops st q r h => runOps_preserves ops st q r h,
   fun ops st q p h => runTOps_preserves ops st q p h⟩

/-- Witness for C6: a concrete finish-then-resubmit run on each variant. -/
theorem claim_C6_witness :
    (∃ r2, findRow (runOps [Op.fin (pidBody "p1") "t1", Op.consent (stdBody "p1" (.jobj [("consent_given", .jint 1)]))] st0) "p1" = some r2 ∧
      r2.stress_condition = row0.stress_condition ∧
      r2.created_at = row0.created_at ∧
      (row0.completed_at.isSome = true → r2.completed_at.isSome = true)) ∧
    (∃ p2, Tyuta.findPart (runTOps [TOp.fin (pidBody "p1") "t1", TOp.save "demo" (stdBody "p1" .jnull) "t2"] tst0).participants "p1" = some p2 ∧
      p2.stress_condition = tpart0.stress_condition ∧
      p2.created_at = tpart0.created_at ∧
      (tpart0.completed_at.isSome = true → p2.completed_at.isSome = true)) :=
  ⟨claim_C6.1 _ st0 "p1" row0 (by decide),
   claim_C6.2 _ tst0 "p1" tpart0 (by decide)⟩

theorem tyuta_save_success (stage pid : String) (data : JVal) (now : String)
    (st : Tyuta.TState) (hallow : Tyuta.allowedStages.contains stage = true)
    (hpid : pid ≠ "") (hex : (Tyuta.findPart st.participants pid).isSome = true) :
    Tyuta.save stage (stdBody pid data) now st =
      .ok { st with answers := st.answers ++
        [{ participant_id := pid, stage := stage, data := jdumps data,
           created_at := now }] } := by
  have hallow2 : stage ∈ Tyuta.allowedStages := by simpa using hallow
  unfold Tyuta.save
  simp [hallow2, stdBody, pyGet, jlookup, truthy, hpid, pidKey, hex]

/-- C7: in the generic variant, a stage name outside the allow-list
{demo, rep, exp, rating} yields a 400 error and writes nothing, while an
allow-listed stage with an existing participant accepts any payload — the
only wrapper check is the presence of `participant_id`. -/
theorem claim_C7 :
    (∀ (stage : String) (body : JVal) (now : String) (st : Tyuta.TState),
        Tyuta.allowedStages.contains stage = false →
        Tyuta.save stage body now st =
          .error (Err.http 400 ("Invalid stage \x27" ++ stage ++ "\x27")) ∧
        runTOp (.save stage body now) st = st) ∧
    (∀ (stage pid : String) (data : JVal) (now : String) (st : Tyuta.TState),
        Tyuta.allowedStages.contains stage = true → pid ≠ "" →
        (Tyuta.findPart st.participants pid).isSome = true →
        ∃ st2, Tyuta.save stage (stdBody pid data) now st = .ok st2) := by
  constructor
  · intro stage body now st h
    have h2 : ¬ stage ∈ Tyuta.allowedStages := by simpa using h
    have herr : Tyuta.save stage body now st =
        .error (Err.http 400 ("Invalid stage \x27" ++ stage ++ "\x27")) := by
      unfold Tyuta.save
      simp [h2]
    exact ⟨herr, by simp [runTOp, applyTOp, herr]⟩
  · intro stage pid data now st hallow hpid hex
    exact ⟨_, tyuta_save_success stage pid data now st hallow hpid hex⟩

/-- Witness for C7: the disallowed stage `"foo"` is rejected with 400; the
allowed stage `"demo"` accepts a bare integer payload for participant
`"p1"`. -/
theorem claim_C7_witness :
    (Tyuta.save "foo" (stdBody "p1" .jnull) "t1" tst0 =
      .error (Err.http 400 ("Invalid stage \x27" ++ "foo" ++ "\x27")) ∧
     runTOp (.save "foo" (stdBody "p1" .jnull) "t1") tst0 = tst0) ∧
    (∃ st2, Tyuta.save "demo" (stdBody "p1" (.jint 42)) "t1" tst0 = .ok st2) :=
  ⟨claim_C7.1 "foo" (stdBody "p1" .jnull) "t1" tst0 (by decide),
   claim_C7.2 "demo" "p1" (.jint 42) "t1" tst0 (by decide) (by decide) (by decide)⟩

/-- C8: in the generic variant, a successful stage save appends exactly one
row to `answers` and leaves all earlier rows and the participants table
unchanged; resubmitting the same stage appends another row instead of
overwriting. -/
theorem claim_C8 (stage pid : String) (data data2 : JVal) (now now2 : String)
    (st : Tyuta.TState) (hallow : Tyuta.allowedStages.contains stage = true)
    (hpid : pid ≠ "") (hex : (Tyuta.findPart st.participants pid).isSome = true) :
    ∃ st2, Tyuta.save stage (stdBody pid data) now st = .ok st2 ∧
      st2.participants = st.participants ∧
      st2.answers = st.answers ++
        [{ participant_id := pid, stage := stage, data := jdumps data,
           created_at := now }] ∧
      ∃ st3, Tyuta.save stage (stdBody pid data2) now2 st2 = .ok st3 ∧
        st3.participants = st.participants ∧
        st3.answers = st.answers ++
          [{ participant_id := pid, stage := stage, data := jdumps data,
             created_at := now },
           { participant_id := pid, stage := stage, data := jdumps data2,
             created_at := now2 }] := by
  refine ⟨_, tyuta_save_success stage pid data now st hallow hpid hex, rfl, rfl, ?_⟩
  refine ⟨_, tyuta_save_success stage pid data2 now2 _ hallow hpid hex, rfl, ?_⟩
  simp

/-- Witness for C8: two saves of stage `"rep"` for `"p1"` journal two rows. -/
theorem claim_C8_witness :
    ∃ st2, Tyuta.save "rep" (stdBody "p1" (.jint 1)) "t1" tst0 = .ok st2 ∧
      st2.participants = tst0.participants ∧
      st2.answers = tst0.answers ++
        [{ participant_id := "p1", stage := "rep", data := jdumps (.jint 1),
           created_at := "t1" }] ∧
      ∃ st3, Tyuta.save "rep" (stdBody "p1" (.jint 2)) "t2" st2 = .ok st3 ∧
        st3.participants = tst0.participants ∧
        st3.answers = tst0.answers ++
          [{ participant_id := "p1", stage := "rep", data := jdumps (.jint 1),
             created_at := "t1" },
           { participant_id := "p1", stage := "rep", data := jdumps (.jint 2),
             created_at := "t2" }] :=
  claim_C8 "rep" "p1" (.jint 1) (.jint 2) "t1" "t2" tst0 (by decide) (by decide) (by decide)

theorem finish_success (st : ExpState) (pid now : String)
    (hpid : pid ≠ "") (hex : (findRow st pid).isSome = true) :
    finish (pidBody pid) now st =
      .ok (updRows st pid (fun r => { r with completed_at := some now })) := by
  unfold finish
  simp [pidBody, pyGet, jlookup, truthy, hpid, ensure_participant_exists, pidKey, hex]

theorem finish_notfound (st : ExpState) (pid now : String)
    (hpid : pid ≠ "") (hnone : findRow st pid = none) :
    finish (pidBody pid) now st = .error (Err.http 404 "participant_id not found") := by
  unfold finish
  simp [pidBody, pyGet, jlookup, truthy, hpid, ensure_participant_exists, pidKey, hnone]

theorem tyuta_finish_success (st : Tyuta.TState) (pid now : String)
    (hpid : pid ≠ "") (hex : (Tyuta.findPart st.participants pid).isSome = true) :
    Tyuta.finish (pidBody pid) now st =
      .ok { st with participants :=
              (Tyuta.updParts st.participants pid
                (fun p => { p with completed_at := some now })) } := by
  unfold Tyuta.finish
  simp [pidBody, pyGet, jlookup, truthy, hpid, pidKey, hex]

theorem tyuta_finish_notfound (st : Tyuta.TState) (pid now : String)
    (hpid : pid ≠ "") (hnone : Tyuta.findPart st.participants pid = none) :
    Tyuta.finish (pidBody pid) now st =
      .error (Err.http 404 "participant_id not found") := by
  unfold Tyuta.finish
  simp [pidBody, pyGet, jlookup, truthy, hpid, pidKey, hnone]

/-- C5: `finish` on a nonexistent id fails with 404; on an existing id it
always succeeds, each call overwriting `completed_at` with that call's
clock reading — repeated calls never fail (both variants). -/
theorem claim_C5 :
    (∀ (st : ExpState) (pid now : String), pid ≠ "" → findRow st pid = none →
        finish (pidBody pid) now st = .error (Err.http 404 "participant_id not found")) ∧
    (∀ (st : ExpState) (pid : String) (r : Row) (now now2 : String), pid ≠ "" →
        findRow st pid = some r →
        ∃ st2, finish (pidBody pid) now st = .ok st2 ∧
          findRow st2 pid = some { r with completed_at := some now } ∧
          ∃ st3, finish (pidBody pid) now2 st2 = .ok st3 ∧
            findRow st3 pid = some { r with completed_at := some now2 }) ∧
    (∀ (st : Tyuta.TState) (pid now : String), pid ≠ "" →
        Tyuta.findPart st.participants pid = none →
        Tyuta.finish (pidBody pid) now st =
          .error (Err.http 404 "participant_id not found")) ∧
    (∀ (st : Tyuta.TState) (pid : String) (p : Tyuta.TParticipant) (now now2 : String),
        pid ≠ "" → Tyuta.findPart st.participants pid = some p →
        ∃ st2, Tyuta.finish (pidBody pid) now st = .ok st2 ∧
          Tyuta.findPart st2.participants pid = some { p with completed_at := some now } ∧
          ∃ st3, Tyuta.finish (pidBody pid) now2 st2 = .ok st3 ∧
            Tyuta.findPart st3.participants pid =
              some { p with completed_at := some now2 }) := by
  refine ⟨fun st pid now hpid hnone => finish_notfound st pid now hpid hnone,
          ?_, fun st pid now hpid hnone => tyuta_finish_notfound st pid now hpid hnone, ?_⟩
  · intro st pid r now now2 hpid hr
    have hex : (findRow st pid).isSome = true := by simp [hr]
    refine ⟨_, finish_success st pid now hpid hex, ?_, ?_⟩
    · rw [findRow_updRows]
      simp [hr]
    · have hr2 : findRow (updRows st pid
          (fun r => { r with completed_at := some now })) pid =
          some { r with completed_at := some now } := by
        rw [findRow_updRows]
        simp [hr]
      have hex2 : (findRow (updRows st pid
          (fun r => { r with completed_at := some now })) pid).isSome = true := by
        simp [hr2]
      refine ⟨_, finish_success _ pid now2 hpid hex2, ?_⟩
      rw [findRow_updRows]
      simp [hr2]
  · intro st pid p now now2 hpid hp
    have hex : (Tyuta.findPart st.participants pid).isSome = true := by simp [hp]
    refine ⟨_, tyuta_finish_success st pid now hpid hex, ?_, ?_⟩
    · rw [findPart_updParts]
      simp [hp]
    · have hp2 : Tyuta.findPart (Tyuta.updParts st.participants pid
          (fun p => { p with completed_at := some now })) pid =
          some { p with completed_at := some now } := by
        rw [findPart_updParts]
        simp [hp]
      have hex2 : (Tyuta.findPart (Tyuta.updParts st.participants pid
          (fun p => { p with completed_at := some now })) pid).isSome = true := by
        simp [hp2]
      refine ⟨_, tyuta_finish_success _ pid now2 hpid hex2, ?_⟩
      rw [findPart_updParts]
      simp [hp2]

/-- Witness for C5: a ghost id 404s; finishing `"p1"` twice succeeds and
stamps the second time, in both variants. -/
theorem claim_C5_witness :
    (finish (pidBody "ghost") "t1" st0 =
      .error (Err.http 404 "participant_id not found")) ∧
    (∃ st2, finish (pidBody "p1") "t1" st0 = .ok st2 ∧
      findRow st2 "p1" = some { row0 with completed_at := some "t1" } ∧
      ∃ st3, finish (pidBody "p1") "t2" st2 = .ok st3 ∧
        findRow st3 "p1" = some { row0 with completed_at := some "t2" }) ∧
    (Tyuta.finish (pidBody "ghost") "t1" tst0 =
      .error (Err.http 404 "participant_id not found")) ∧
    (∃ st2, Tyuta.finish (pidBody "p1") "t1" tst0 = .ok st2 ∧
      Tyuta.findPart st2.participants "p1" =
        some { tpart0 with completed_at := some "t1" } ∧
      ∃ st3, Tyuta.finish (pidBody "p1") "t2" st2 = .ok st3 ∧
        Tyuta.findPart st3.participants "p1" =
          some { tpart0 with completed_at := some "t2" }) :=
  ⟨claim_C5.1 st0 "ghost" "t1" (by decide) (by decide),
   claim_C5.2.1 st0 "p1" row0 "t1" "t2" (by decide) (by decide),
   claim_C5.2.2.1 tst0 "ghost" "t1" (by decide) (by decide),
   claim_C5.2.2.2 tst0 "p1" tpart0 "t1" "t2" (by decide) (by decide)⟩

theorem mem_repIdxs (i : Int) : i ∈ repIdxs ↔ 1 ≤ i ∧ i ≤ 15 := by
  unfold repIdxs
  simp
  omega

theorem repMissing_nil (items : List JVal)
    (h : ∀ i ∈ repIdxs, (repScores items i).isSome = true) :
    repMissing items = [] := by
  unfold repMissing
  rw [List.filter_eq_nil_iff]
  intro a ha
  simp only [Option.isNone_iff_eq_none]
  exact Option.isSome_iff_ne_none.mp (h a ha)

theorem repMissing_not_nil (items : List JVal)
    (h : ¬ ∀ i ∈ repIdxs, (repScores items i).isSome = true) :
    (repMissing items).isEmpty = false := by
  push_neg at h
  obtain ⟨i, hi, hnone⟩ := h
  have hn : repScores items i = none := by
    cases hrep : repScores items i with
    | none => rfl
    | some v => rw [hrep] at hnone; simp at hnone
  have hmem : i ∈ repMissing items := by
    unfold repMissing
    rw [List.mem_filter]
    exact ⟨hi, by simp [hn]⟩
  cases hm : repMissing items with
  | nil => rw [hm] at hmem; cases hmem
  | cons a l => rfl

theorem repScores_append_last (xs : List JVal) (q s : Int)
    (h1 : 1 ≤ q) (h2 : q ≤ 15) (h3 : 1 ≤ s) (h4 : s ≤ 5) :
    repScores (xs ++ [repItem q s]) q = some s ∧
    ∀ j, j ≠ q → repScores (xs ++ [repItem q s]) j = repScores xs j := by
  have hfold : repScores (xs ++ [repItem q s]) =
      updScores (repScores xs) (repItem q s) := by
    unfold repScores
    rw [List.foldl_append]
    rfl
  rw [hfold]
  unfold updScores repItem
  simp [jlookup, asPyInt, h1, h2, h3, h4]
  intro j hj
  simp [hj]

/-- C1: a repression submission whose resolved per-index scores (duplicates
last-write-wins) cover 1..15 succeeds; one whose resolved set omits indices
fails with a 400 whose message lists exactly the missing indices of [1,15],
in ascending order.  The third conjunct is the last-write-wins law of the
resolution itself. -/
theorem claim_C1 (items : List JVal) (st : ExpState) (pid : String)
    (hpid : pid ≠ "") :
    (((∀ i ∈ repIdxs, (repScores items i).isSome = true) ∧
        (findRow st pid).isSome = true) →
      ∃ st2, save_rep (stdBody pid (.jlist items)) st = .ok st2) ∧
    ((¬ ∀ i ∈ repIdxs, (repScores items i).isSome = true) →
      save_rep (stdBody pid (.jlist items)) st =
        .error (Err.http 400 (missingMsg (repMissing items))) ∧
      List.Sorted (fun a b : Int => a < b) (repMissing items) ∧
      (∀ i : Int, i ∈ repMissing items ↔
        (1 ≤ i ∧ i ≤ 15 ∧ repScores items i = none))) ∧
    (∀ (xs : List JVal) (q s : Int), 1 ≤ q → q ≤ 15 → 1 ≤ s → s ≤ 5 →
      repScores (xs ++ [repItem q s]) q = some s ∧
      ∀ j, j ≠ q → repScores (xs ++ [repItem q s]) j = repScores xs j) := by
  refine ⟨?_, ?_, fun xs q s h1 h2 h3 h4 => repScores_append_last xs q s h1 h2 h3 h4⟩
  · rintro ⟨hcov, hex⟩
    have hnil : repMissing items = [] := repMissing_nil items hcov
    unfold save_rep
    simp [stdBody, pyGet, jlookup, truthy, hpid, hnil,
          ensure_participant_exists, pidKey, hex]
  · intro hmiss
    have hne : (repMissing items).isEmpty = false := repMissing_not_nil items hmiss
    refine ⟨?_, ?_, ?_⟩
    · unfold save_rep
      simp [stdBody, pyGet, jlookup, truthy, hpid, hne]
    · have hsort : List.Sorted (fun a b : Int => a < b) repIdxs := by
        unfold repIdxs
        decide
      exact hsort.filter _
    · intro i
      unfold repMissing
      rw [List.mem_filter, mem_repIdxs]
      simp [Option.isNone_iff_eq_none, and_assoc]

/-- Witness for C1: fifteen items with score 3 covering every index are
accepted for participant `"p1"`. -/
theorem claim_C1_witness :
    ∃ st2, save_rep (stdBody "p1" (.jlist fullRepItems)) st0 = .ok st2 :=
  (claim_C1 fullRepItems st0 "p1" (by decide)).1 ⟨by decide, by decide⟩

/-- C9: in the fixed-column variant's repression handler, items that are
not dicts, or whose qIndex is not an int in [1,15], or whose score is not
an int in [1,5], are silently skipped (the loop leaves the accumulator
unchanged); the handler's only errors are the exception on a non-dict body,
the missing-id 400, the not-a-list 400, the not-found 404 and the
missing-indices 400 — no error ever names the score field. -/
theorem claim_C9 :
    (∀ (acc : Int → Option Int) (item : JVal), repItemValid item = false →
        updScores acc item = acc) ∧
    (∀ (body : JVal) (st : ExpState) (e : Err),
        save_rep body st = .error e →
        e = Err.exn ∨
        e = Err.http 400 "Missing participant_id" ∨
        e = Err.http 400 "Repression data must be a list" ∨
        e = Err.http 404 "participant_id not found" ∨
        ∃ items : List JVal, e = Err.http 400 (missingMsg (repMissing items))) := by
  constructor
  · intro acc item h
    unfold repItemValid at h
    unfold updScores
    cases item <;> try rfl
    rename_i fs
    cases hq : asPyInt ((jlookup fs "qIndex").getD .jnull) <;>
      cases hs : asPyInt ((jlookup fs "score").getD .jnull) <;>
      simp_all
  · intro body st e h
    unfold save_rep at h
    split at h
    · cases h
      exact Or.inl (pyGet_error _ _ _ (by assumption))
    · cases h
      exact Or.inl (pyGet_error _ _ _ (by assumption))
    · split at h
      · cases h
        exact Or.inr (Or.inl rfl)
      · split at h
        · split at h
          · cases h
            rename_i items _ _
            exact Or.inr (Or.inr (Or.inr (Or.inr ⟨items, rfl⟩)))
          · split at h
            · cases h
              rename_i heq
              exact Or.inr (Or.inr (Or.inr (Or.inl (ensure_error _ _ _ heq))))
            · cases h
        · cases h
          exact Or.inr (Or.inr (Or.inl rfl))

/-- Witness for C9: a non-dict item, a bad-index item and a score-6 item
are all skipped by the loop. -/
theorem claim_C9_witness :
    (repItemValid (.jstr "junk") = false ∧
      updScores (repScores []) (.jstr "junk") = repScores []) ∧
    (repItemValid (repItem 0 3) = false ∧
      updScores (repScores []) (repItem 0 3) = repScores []) ∧
    (repItemValid (repItem 3 6) = false ∧
      updScores (repScores []) (repItem 3 6) = repScores []) ∧
    (∃ e, save_rep (stdBody "p1" (.jlist [repItem 3 6])) st0 = .error e ∧
      (e = Err.exn ∨
       e = Err.http 400 "Missing participant_id" ∨
       e = Err.http 400 "Repression data must be a list" ∨
       e = Err.http 404 "participant_id not found" ∨
       ∃ items : List JVal, e = Err.http 400 (missingMsg (repMissing items)))) :=
  ⟨⟨by decide, claim_C9.1 (repScores []) (.jstr "junk") (by decide)⟩,
   ⟨by decide, claim_C9.1 (repScores []) (repItem 0 3) (by decide)⟩,
   ⟨by decide, claim_C9.1 (repScores []) (repItem 3 6) (by decide)⟩,
   ⟨_, rfl, claim_C9.2 (stdBody "p1" (.jlist [repItem 3 6])) st0 _ rfl⟩⟩

theorem demoValidate_error (fs : List (String × JVal))
    (hbad : demoChecksOk fs = false) :
    ∃ msg, demoValidate (.jobj fs) = .error (Err.http 400 msg) ∧
      demoMsgNamesBadField fs msg := by
  rcases (Bool.eq_false_or_eq_true (speakEnglishOk (demoField fs "speak_english"))).symm with h1 | h1
  · refine ⟨"speak_english must be yes/no", ?_, Or.inl ⟨rfl, h1⟩⟩
    unfold demoValidate
    simp only [demoField] at h1
    simp [pyGet, h1]
  rcases (Bool.eq_false_or_eq_true (ageOk (demoField fs "age"))).symm with h2 | h2
  · refine ⟨"Invalid age (must be integer 18-99)", ?_, Or.inr (Or.inl ⟨rfl, h2⟩)⟩
    unfold demoValidate
    simp only [demoField] at h1 h2
    simp [pyGet, h1, h2]
  rcases (Bool.eq_false_or_eq_true
    (strIn (demoField fs "gender") ["male", "female", "other"])).symm with h3 | h3
  · refine ⟨"gender must be male/female/other", ?_, Or.inr (Or.inr (Or.inl ⟨rfl, h3⟩))⟩
    unfold demoValidate
    simp only [demoField] at h1 h2 h3
    simp [pyGet, h1, h2, h3]
  rcases (Bool.eq_false_or_eq_true
    (strIn (demoField fs "residence") ["north", "central", "south"])).symm with h4 | h4
  · refine ⟨"residence must be north/central/south", ?_,
      Or.inr (Or.inr (Or.inr (Or.inl ⟨rfl, h4⟩)))⟩
    unfold demoValidate
    simp only [demoField] at h1 h2 h3 h4
    simp [pyGet, h1, h2, h3, h4]
  rcases (Bool.eq_false_or_eq_true
    (strIn (demoField fs "socioeconomic") ["low", "medium", "high"])).symm with h5 | h5
  · refine ⟨"socioeconomic must be low/medium/high", ?_,
      Or.inr (Or.inr (Or.inr (Or.inr (Or.inl ⟨rfl, h5⟩))))⟩
    unfold demoValidate
    simp only [demoField] at h1 h2 h3 h4 h5
    simp [pyGet, h1, h2, h3, h4, h5]
  rcases (Bool.eq_false_or_eq_true
    (strIn (demoField fs "marital_status") ["single", "married"])).symm with h6 | h6
  · refine ⟨"marital_status must be single/married", ?_,
      Or.inr (Or.inr (Or.inr (Or.inr (Or.inr (Or.inl ⟨rfl, h6⟩)))))⟩
    unfold demoValidate
    simp only [demoField] at h1 h2 h3 h4 h5 h6
    simp [pyGet, h1, h2, h3, h4, h5, h6]
  rcases (Bool.eq_false_or_eq_true
    (strIn (demoField fs "education")
      ["until_high_school", "high_school", "ba", "masters_or_higher"])).symm with h7 | h7
  · refine ⟨"education must be until_high_school/high_school/ba/masters_or_higher", ?_,
      Or.inr (Or.inr (Or.inr (Or.inr (Or.inr (Or.inr ⟨rfl, h7⟩)))))⟩
    unfold demoValidate
    simp only [demoField] at h1 h2 h3 h4 h5 h6 h7
    simp [pyGet, h1, h2, h3, h4, h5, h6, h7]
  exfalso
  unfold demoChecksOk at hbad
  simp [h1, h2, h3, h4, h5, h6, h7] at hbad

theorem dataOrEmpty_obj (fs : List (String × JVal)) :
    dataOrEmpty (.jobj fs) = .jobj fs := by
  unfold dataOrEmpty
  cases fs <;> simp [truthy]

/-- C4: a demographics submission with a bad age or an unrecognized enum
value fails with a 400 whose message names a field that really fails its
check, and the participant table is left completely unchanged. -/
theorem claim_C4 (st : ExpState) (pid : String) (fs : List (String × JVal))
    (hpid : pid ≠ "") (hbad : demoChecksOk fs = false) :
    ∃ msg, save_demo (stdBody pid (.jobj fs)) st = .error (Err.http 400 msg) ∧
      demoMsgNamesBadField fs msg ∧
      runSave save_demo (stdBody pid (.jobj fs)) st = st := by
  obtain ⟨msg, hval, hname⟩ := demoValidate_error fs hbad
  have herr : save_demo (stdBody pid (.jobj fs)) st = .error (Err.http 400 msg) := by
    unfold save_demo
    simp [stdBody, pyGet, jlookup, truthy, hpid, dataOrEmpty_obj, hval]
  exact ⟨msg, herr, hname, by simp [runSave, herr]⟩

/-- Witness for C4: an under-age submission (age 17) is rejected with a
message naming age, writing nothing to the one-row table. -/
theorem claim_C4_witness :
    ∃ msg, save_demo (stdBody "p1" (.jobj
        [("speak_english", .jstr "yes"), ("age", .jint 17),
         ("gender", .jstr "male"), ("residence", .jstr "north"),
         ("socioeconomic", .jstr "low"), ("marital_status", .jstr "single"),
         ("education", .jstr "ba")])) st0 = .error (Err.http 400 msg) ∧
      demoMsgNamesBadField
        [("speak_english", .jstr "yes"), ("age", .jint 17),
         ("gender", .jstr "male"), ("residence", .jstr "north"),
         ("socioeconomic", .jstr "low"), ("marital_status", .jstr "single"),
         ("education", .jstr "ba")] msg ∧
      runSave save_demo (stdBody "p1" (.jobj
        [("speak_english", .jstr "yes"), ("age", .jint 17),
         ("gender", .jstr "male"), ("residence", .jstr "north"),
         ("socioeconomic", .jstr "low"), ("marital_status", .jstr "single"),
         ("education", .jstr "ba")])) st0 = st0 :=
  claim_C4 st0 "p1"
    [("speak_english", .jstr "yes"), ("age", .jint 17),
     ("gender", .jstr "male"), ("residence", .jstr "north"),
     ("socioeconomic", .jstr "low"), ("marital_status", .jstr "single"),
     ("education", .jstr "ba")] (by decide) (by decide)

theorem demoValidate_ok (fs : List (String × JVal)) (hok : demoChecksOk fs = true) :
    demoValidate (.jobj fs) = .ok
      { speak_english := theStr (demoField fs "speak_english"),
        age := (asPyInt (demoField fs "age")).getD 0,
        gender := theStr (demoField fs "gender"),
        residence := theStr (demoField fs "residence"),
        socioeconomic := theStr (demoField fs "socioeconomic"),
        marital_status := theStr (demoField fs "marital_status"),
        education := theStr (demoField fs "education") } := by
  unfold demoChecksOk at hok
  simp only [Bool.and_eq_true] at hok
  obtain ⟨⟨⟨⟨⟨⟨h1, h2⟩, h3⟩, h4⟩, h5⟩, h6⟩, h7⟩ := hok
  unfold demoValidate
  simp only [demoField] at h1 h2 h3 h4 h5 h6 h7
  simp [pyGet, demoField, h1, h2, h3, h4, h5, h6, h7]

/-- C2 counterexample: the fixed-column demographics handler rejects the
input `"Male"` outright — gender is not treated case-insensitively and no
lowercase normalization happens; nothing reaches storage. -/
theorem claim_C2_counterexample :
    save_demo (stdBody "p1" (.jobj maleDemoObj)) st0 =
      .error (Err.http 400 "gender must be male/female/other") ∧
    runSave save_demo (stdBody "p1" (.jobj maleDemoObj)) st0 = st0 :=
  ⟨rfl, rfl⟩

/-- C2 amended: gender is compared case-sensitively against the exact
strings male/female/other, so only already-lowercase values are accepted;
a successful save stores every submitted string verbatim (in particular the
gender value retrieved from storage equals the raw input, which the
validator forces to be lowercase — no normalization is applied). -/
theorem claim_C2_amended (st : ExpState) (pid : String) (r : Row)
    (fs : List (String × JVal)) (hpid : pid ≠ "")
    (hr : findRow st pid = some r) (hok : demoChecksOk fs = true) :
    strIn (demoField fs "gender") ["male", "female", "other"] = true ∧
    ∃ st2, save_demo (stdBody pid (.jobj fs)) st = .ok st2 ∧
      findRow st2 pid = some { r with
        speak_english := some (theStr (demoField fs "speak_english")),
        age := some ((asPyInt (demoField fs "age")).getD 0),
        gender := some (theStr (demoField fs "gender")),
        residence := some (theStr (demoField fs "residence")),
        socioeconomic := some (theStr (demoField fs "socioeconomic")),
        marital_status := some (theStr (demoField fs "marital_status")),
        education := some (theStr (demoField fs "education")) } := by
  have hg : strIn (demoField fs "gender") ["male", "female", "other"] = true := by
    unfold demoChecksOk at hok
    simp only [Bool.and_eq_true] at hok
    exact hok.1.1.1.1.2
  have hval := demoValidate_ok fs hok
  have hex : (findRow st pid).isSome = true := by simp [hr]
  refine ⟨hg, updRows st pid (fun rr => { rr with
      speak_english := some (theStr (demoField fs "speak_english")),
      age := some ((asPyInt (demoField fs "age")).getD 0),
      gender := some (theStr (demoField fs "gender")),
      residence := some (theStr (demoField fs "residence")),
      socioeconomic := some (theStr (demoField fs "socioeconomic")),
      marital_status := some (theStr (demoField fs "marital_status")),
      education := some (theStr (demoField fs "education")) }), ?_, ?_⟩
  · unfold save_demo
    simp [stdBody, pyGet, jlookup, truthy, hpid, dataOrEmpty_obj, hval,
          ensure_participant_exists, pidKey, hex]
  · rw [findRow_updRows]
    simp [hr]

/-- Witness for C2 amended: the all-lowercase payload (gender `"male"`) is
accepted for `"p1"` and the row stores exactly the submitted strings. -/
theorem claim_C2_amended_witness :
    strIn (demoField validDemoObj "gender") ["male", "female", "other"] = true ∧
    ∃ st2, save_demo (stdBody "p1" (.jobj validDemoObj)) st0 = .ok st2 ∧
      findRow st2 "p1" = some { row0 with
        speak_english := some (theStr (demoField validDemoObj "speak_english")),
        age := some ((asPyInt (demoField validDemoObj "age")).getD 0),
        gender := some (theStr (demoField validDemoObj "gender")),
        residence := some (theStr (demoField validDemoObj "residence")),
        socioeconomic := some (theStr (demoField validDemoObj "socioeconomic")),
        marital_status := some (theStr (demoField validDemoObj "marital_status")),
        education := some (theStr (demoField validDemoObj "education")) } :=
  claim_C2_amended st0 "p1" row0 validDemoObj (by decide) (by decide) (by decide)

/-- C10: every fixed-column save handler validates its payload before the
participant existence check, so an invalid payload with an unknown id gets
the 400 validation error, never the 404 — for any state, including one with
no matching row. -/
theorem pyGet_stdBody_pid (pid : String) (data : JVal) :
    pyGet (stdBody pid data) "participant_id" = .ok (.jstr pid) := rfl

theorem pyGet_stdBody_data (pid : String) (data : JVal) :
    pyGet (stdBody pid data) "data" = .ok data := rfl

theorem claim_C10 :
    (∀ (st : ExpState) (pid : String) (data cg : JVal), pid ≠ "" →
        pyGet (dataOrEmpty data) "consent_given" = .ok cg → consentVal cg = none →
        save_consent (stdBody pid data) st =
          .error (Err.http 400 "consent_given must be 0 or 1")) ∧
    (∀ (st : ExpState) (pid : String) (data : JVal) (msg : String), pid ≠ "" →
        demoValidate (dataOrEmpty data) = .error (Err.http 400 msg) →
        save_demo (stdBody pid data) st = .error (Err.http 400 msg)) ∧
    (∀ (st : ExpState) (pid : String) (items : List JVal), pid ≠ "" →
        (repMissing items).isEmpty = false →
        save_rep (stdBody pid (.jlist items)) st =
          .error (Err.http 400 (missingMsg (repMissing items)))) ∧
    (∀ (st : ExpState) (pid : String) (data rv : JVal), pid ≠ "" →
        pyGet (dataOrEmpty data) "rating" = .ok rv → ratingOk rv = false →
        save_rating (stdBody pid data) st =
          .error (Err.http 400 "Invalid rating (must be integer 1-10)")) := by
  refine ⟨?_, ?_, ?_, ?_⟩
  · intro st pid data cg hpid hcg hnone
    unfold save_consent
    rw [pyGet_stdBody_pid, pyGet_stdBody_data]
    simp [truthy, hpid, hcg, hnone]
  · intro st pid data msg hpid hval
    unfold save_demo
    rw [pyGet_stdBody_pid, pyGet_stdBody_data]
    simp [truthy, hpid, hval]
  · intro st pid items hpid hne
    unfold save_rep
    rw [pyGet_stdBody_pid, pyGet_stdBody_data]
    simp [truthy, hpid, hne]
  · intro st pid data rv hpid hrv hbad
    unfold save_rating
    rw [pyGet_stdBody_pid, pyGet_stdBody_data]
    simp [truthy, hpid, hrv, hbad]

/-- Witness for C10: against the empty table (so `"ghost"` surely has no
row), each of the four stage handlers answers 400, not 404. -/
theorem claim_C10_witness :
    save_consent (stdBody "ghost" (.jobj [("consent_given", .jint 5)])) [] =
      .error (Err.http 400 "consent_given must be 0 or 1") ∧
    save_demo (stdBody "ghost" (.jobj [])) [] =
      .error (Err.http 400 "speak_english must be yes/no") ∧
    save_rep (stdBody "ghost" (.jlist [])) [] =
      .error (Err.http 400 (missingMsg (repMissing []))) ∧
    save_rating (stdBody "ghost" (.jobj [("rating", .jint 11)])) [] =
      .error (Err.http 400 "Invalid rating (must be integer 1-10)") :=
  ⟨claim_C10.1 [] "ghost" (.jobj [("consent_given", .jint 5)]) (.jint 5)
     (by decide) rfl rfl,
   claim_C10.2.1 [] "ghost" (.jobj []) "speak_english must be yes/no" (by decide) rfl,
   claim_C10.2.2.1 [] "ghost" [] (by decide) rfl,
   claim_C10.2.2.2 [] "ghost" (.jobj [("rating", .jint 11)]) (.jint 11)
     (by decide) rfl rfl⟩

/-- C3 counterexample: the id `"ghost"` was never issued, yet a rating
submission for it with rating 11 answers the 400 validation error, not the
404 NotFound the claim requires for every raw payload. -/
theorem claim_C3_counterexample :
    save_rating (stdBody "ghost" (.jobj [("rating", .jint 11)])) ([] : ExpState) =
      .error (Err.http 400 "Invalid rating (must be integer 1-10)") ∧
    save_rating (stdBody "ghost" (.jobj [("rating", .jint 11)])) ([] : ExpState) ≠
      .error (Err.http 404 "participant_id not found") := by
  have h : save_rating (stdBody "ghost" (.jobj [("rating", .jint 11)])) ([] : ExpState) =
      .error (Err.http 400 "Invalid rating (must be integer 1-10)") := rfl
  refine ⟨h, ?_⟩
  rw [h]
  intro hcontra
  simp at hcontra

theorem pyGet_pidBody (pid : String) :
    pyGet (pidBody pid) "participant_id" = .ok (.jstr pid) := rfl

/-- C3 amended: a `submitStage`/`finish` call whose wrapper and payload
pass validation, made with an id that has no stored row, fails with 404
NotFound — in both variants.  (As stated, the claim is false: validation
runs first, so an invalid payload yields 400 even for an unknown id.) -/
theorem claim_C3_amended :
    (∀ (st : ExpState) (pid : String) (data cg : JVal) (n : Int), pid ≠ "" →
        findRow st pid = none →
        pyGet (dataOrEmpty data) "consent_given" = .ok cg → consentVal cg = some n →
        save_consent (stdBody pid data) st =
          .error (Err.http 404 "participant_id not found")) ∧
    (∀ (st : ExpState) (pid : String) (data : JVal) (d : DemoFields), pid ≠ "" →
        findRow st pid = none → demoValidate (dataOrEmpty data) = .ok d →
        save_demo (stdBody pid data) st =
          .error (Err.http 404 "participant_id not found")) ∧
    (∀ (st : ExpState) (pid : String) (items : List JVal), pid ≠ "" →
        findRow st pid = none → repMissing items = [] →
        save_rep (stdBody pid (.jlist items)) st =
          .error (Err.http 404 "participant_id not found")) ∧
    (∀ (st : ExpState) (pid : String) (data rv : JVal), pid ≠ "" →
        findRow st pid = none →
        pyGet (dataOrEmpty data) "rating" = .ok rv → ratingOk rv = true →
        save_rating (stdBody pid data) st =
          .error (Err.http 404 "participant_id not found")) ∧
    (∀ (st : ExpState) (pid now : String), pid ≠ "" → findRow st pid = none →
        finish (pidBody pid) now st =
          .error (Err.http 404 "participant_id not found")) ∧
    (∀ (st : Tyuta.TState) (stage pid : String) (data : JVal) (now : String),
        Tyuta.allowedStages.contains stage = true → pid ≠ "" →
        Tyuta.findPart st.participants pid = none →
        Tyuta.save stage (stdBody pid data) now st =
          .error (Err.http 404 "participant_id not found")) ∧
    (∀ (st : Tyuta.TState) (pid now : String), pid ≠ "" →
        Tyuta.findPart st.participants pid = none →
        Tyuta.finish (pidBody pid) now st =
          .error (Err.http 404 "participant_id not found")) := by
  refine ⟨?_, ?_, ?_, ?_,
    fun st pid now hpid hnone => finish_notfound st pid now hpid hnone, ?_,
    fun st pid now hpid hnone => tyuta_finish_notfound st pid now hpid hnone⟩
  · intro st pid data cg n hpid hnone hcg hn
    unfold save_consent
    rw [pyGet_stdBody_pid, pyGet_stdBody_data]
    simp [truthy, hpid, hcg, hn, ensure_participant_exists, pidKey, hnone]
  · intro st pid data d hpid hnone hval
    unfold save_demo
    rw [pyGet_stdBody_pid, pyGet_stdBody_data]
    simp [truthy, hpid, hval, ensure_participant_exists, pidKey, hnone]
  · intro st pid items hpid hnone hmiss
    unfold save_rep
    rw [pyGet_stdBody_pid, pyGet_stdBody_data]
    simp [truthy, hpid, hmiss, ensure_participant_exists, pidKey, hnone]
  · intro st pid data rv hpid hnone hrv hok
    unfold save_rating
    rw [pyGet_stdBody_pid, pyGet_stdBody_data]
    simp [truthy, hpid, hrv, hok, ensure_participant_exists, pidKey, hnone]
  · intro st stage pid data now hallow hpid hnone
    have hallow2 : stage ∈ Tyuta.allowedStages := by simpa using hallow
    unfold Tyuta.save
    rw [pyGet_stdBody_pid, pyGet_stdBody_data]
    simp [hallow2, truthy, hpid, pidKey, hnone]

/-- Witness for C3 amended: with an empty store, fully valid calls of every
kind against `"ghost"` answer 404. -/
theorem claim_C3_amended_witness :
    save_consent (stdBody "ghost" (.jobj [("consent_given", .jint 1)])) ([] : ExpState) =
      .error (Err.http 404 "participant_id not found") ∧
    save_demo (stdBody "ghost" (.jobj validDemoObj)) ([] : ExpState) =
      .error (Err.http 404 "participant_id not found") ∧
    save_rep (stdBody "ghost" (.jlist fullRepItems)) ([] : ExpState) =
      .error (Err.http 404 "participant_id not found") ∧
    save_rating (stdBody "ghost" (.jobj [("rating", .jint 7)])) ([] : ExpState) =
      .error (Err.http 404 "participant_id not found") ∧
    finish (pidBody "ghost") "t1" ([] : ExpState) =
      .error (Err.http 404 "participant_id not found") ∧
    Tyuta.save "exp" (stdBody "ghost" .jnull) "t1"
        { participants := [], answers := [] } =
      .error (Err.http 404 "participant_id not found") ∧
    Tyuta.finish (pidBody "ghost") "t1" { participants := [], answers := [] } =
      .error (Err.http 404 "participant_id not found") :=
  ⟨claim_C3_amended.1 [] "ghost" (.jobj [("consent_given", .jint 1)]) (.jint 1) 1
     (by decide) rfl rfl rfl,
   claim_C3_amended.2.1 [] "ghost" (.jobj validDemoObj)
     ⟨"yes", 30, "male", "north", "low", "single", "ba"⟩ (by decide) rfl rfl,
   claim_C3_amended.2.2.1 [] "ghost" fullRepItems (by decide) rfl (by decide),
   claim_C3_amended.2.2.2.1 [] "ghost" (.jobj [("rating", .jint 7)]) (.jint 7)
     (by decide) rfl rfl rfl,
   claim_C3_amended.2.2.2.2.1 [] "ghost" "t1" (by decide) rfl,
   claim_C3_amended.2.2.2.2.2.1 { participants := [], answers := [] } "exp" "ghost"
     .jnull "t1" (by decide) (by decide) rfl,
   claim_C3_amended.2.2.2.2.2.2 { participants := [], answers := [] } "ghost" "t1"
     (by decide) rfl⟩
